import Mathlib

/-!
Shallow embedding of `rattler.py`, a receiver for seismological network
datagrams (wire codec, timestamp compensation, ordering filter, and the
measurement value type), together with theorems settling the specification
claims about it.

Modelling conventions:
* A datagram is a `List Nat`, each element one byte (values < 256 on the wire;
  the definitions are total over `Nat`).
* Python numbers (the sensor's relative times, wall-clock instants, axis
  readings) are modelled as exact rationals `ℚ`; `datetime.datetime` values are
  modelled as rational seconds since an arbitrary epoch and
  `datetime.timedelta(seconds, microseconds)` as the exact rational
  `seconds + microseconds / 10^6` (sub-microsecond rounding of the `timedelta`
  constructor is below the granularity of every claim and is not modelled).
* IEEE-754 decoding of the wire floats (`struct` formats `f` and `d`) is
  modelled bit-exactly into `ℚ` for finite values; every finite float is an
  exact rational.
* Raised exceptions become `Except`/result values carrying the same data;
  mutation of receiver attributes becomes explicit state passing.
-/

namespace Rattler

/-- A peer address as returned by `socket.recvfrom`: `(host, port)`. -/
abbrev Addr := String × Nat

/-- The exceptions the decode path can raise, as result values.
`partialData` models the `PartialData(num_got, num_want, data)` exception
(note: the *call site* in `unpack_wrapper` passes `PartialData(sz, len(rest),
msg)`, so the field assignment is whatever the code does, not what the names
suggest); `structError` models `struct.error` from `struct.unpack` on a buffer
of the wrong length; `excessData` models the `ValueError("got excess data...")`
raised by `unpack_measurement`; `notImplemented` models the
`NotImplementedError("in the future!")` raised for the announce message type. -/
inductive RErr where
  | partialData (num_got : Nat) (num_want : Nat) (data : List Nat)
  | structError
  | excessData (rest : List Nat)
  | notImplemented
  deriving DecidableEq

/-- The message attached to a `PartialData` exception:
`"wanted %d bytes, got %d" % (num_got, num_want)` (from `PartialData.__init__`).
Note that `num_got` is formatted as the *wanted* count and `num_want` as the
*got* count — the code's own message contradicts its attribute names. -/
def partialDataMessage (num_got : Nat) (num_want : Nat) : String :=
  "wanted " ++ toString num_got ++ " bytes, got " ++ toString num_want

/-- Big-endian (network byte order) interpretation of a byte list as a `Nat`. -/
def bytesToNat (bs : List Nat) : Nat :=
  bs.foldl (fun acc b => acc * 256 + b) 0

/-- Bit-exact value of an IEEE-754 binary floating-point number with `expBits`
exponent bits and `fracBits` fraction bits, given its bit pattern `n`, as an
exact rational. Normal values are `±(2^fracBits + frac) · 2^(e - bias - fracBits)`
and subnormals `±frac · 2^(1 - bias - fracBits)`, written over the common
denominator `2^(bias + fracBits)`. (The claims never touch infinities/NaN, whose
bit patterns this rational model does not distinguish.) -/
def decodeFloat (expBits fracBits : Nat) (n : Nat) : ℚ :=
  let frac := n % 2 ^ fracBits
  let expF := n / 2 ^ fracBits % 2 ^ expBits
  let sign := n / 2 ^ (fracBits + expBits)
  let denom : ℚ := 2 ^ (2 ^ (expBits - 1) - 1 + fracBits)
  let mag : ℚ :=
    if expF = 0 then (frac * 2 : ℚ) / denom
    else ((2 ^ fracBits + frac) * 2 ^ expF : ℚ) / denom
  if sign = 1 then -mag else mag

/-- The value of `struct.calcsize("! HH")`: the wrapper format, two big-endian unsigned
16-bit fields, 4 bytes. -/
def wrapperFmtSize : Nat := 4

/-- The value of `struct.calcsize("! f 3d")`: one big-endian 32-bit float followed by three
big-endian 64-bit doubles, 28 bytes. -/
def measurementFmtSize : Nat := 28

/-- The result of `struct.unpack("! HH", part)` on a 4-byte buffer: the two 16-bit
big-endian fields `(typ, sz)`; `none` models `struct.error` when the buffer is
not exactly 4 bytes. -/
def unpackWrapperFields (part : List Nat) : Option (Nat × Nat) :=
  match part with
  | [b0, b1, b2, b3] => some (b0 * 256 + b1, b2 * 256 + b3)
  | _ => none

/-- The result of `struct.unpack("! f 3d", part)` on a 28-byte buffer: the f32 relative time
at bytes 0–3 and the three f64 axis readings at bytes 4–11, 12–19, 20–27. -/
def unpackMeasurementFields (part : List Nat) : ℚ × ℚ × ℚ × ℚ :=
  (decodeFloat 8 23 (bytesToNat (part.take 4)),
   decodeFloat 11 52 (bytesToNat ((part.drop 4).take 8)),
   decodeFloat 11 52 (bytesToNat ((part.drop 12).take 8)),
   decodeFloat 11 52 (bytesToNat ((part.drop 20).take 8)))

/-- The function `unpack_wrapper(msg)`: split off the 4-byte wrapper via
`wrapper_fmt.unpack_split(msg)` (which `struct.unpack`s `msg[:4]` — a
`struct.error` if fewer than 4 bytes are present — and keeps `msg[4:]` as
`rest`), then `if len(msg) != sz: raise PartialData(sz, len(rest), msg)`,
else return `(typ, rest)`. Note the length test is against the *whole*
datagram `msg`, header included, and note the argument order of the
`PartialData` call. -/
def unpack_wrapper (msg : List Nat) : Except RErr (Nat × List Nat) :=
  let part := msg.take wrapperFmtSize
  let rest := msg.drop wrapperFmtSize
  match unpackWrapperFields part with
  | none => .error .structError
  | some (typ, sz) =>
      if msg.length ≠ sz then .error (.partialData sz rest.length msg)
      else .ok (typ, rest)

/-- The function `unpack_measurement(msg)`: `measurement_fmt.unpack_split(msg)` —
`struct.unpack("! f 3d", msg[:28])`, a `struct.error` when `msg[:28]` is not
exactly 28 bytes — then `if rest: raise ValueError("got excess data %r")`,
else return the `(reltime, x, y, z)` quadruple. -/
def unpack_measurement (msg : List Nat) : Except RErr (ℚ × ℚ × ℚ × ℚ) :=
  let part := msg.take measurementFmtSize
  let rest := msg.drop measurementFmtSize
  if part.length = measurementFmtSize then
    if rest = [] then .ok (unpackMeasurementFields part)
    else .error (.excessData rest)
  else .error .structError

/-! ## The measurement value type (`class Measurement`) -/

/-- The class `Measurement(timestamp, x, y, z, source=None)`. The axis type is a
parameter: the constructor does not constrain `x, y, z` (the decode path
stores floats, modelled by `ℚ`; the bitwise-complement operator is only
applicable when they are integers, modelled by `ℤ`). A `Measurement` is a
value: the operations below construct new instances and cannot mutate their
operands. -/
structure Measurement (α : Type) where
  timestamp : ℚ
  x : α
  y : α
  z : α
  source : Option Addr
  deriving DecidableEq

/-- An operand value exposing `x`, `y` and `z` attributes (what the
`hasattrs(o, ("x", "y", "z"))` duck-typing check demands). -/
structure XYZ (α : Type) where
  x : α
  y : α
  z : α
  deriving DecidableEq

/-- The method `Measurement.clone(self, x, y, z)`: a copy of this instance with new
accelerometer data. -/
def Measurement.clone (m : Measurement α) (x y z : α) : Measurement α :=
  ⟨m.timestamp, x, y, z, m.source⟩

/-- The operator `Measurement.__add__`: `none` as operand models an operand lacking one of
the `x`, `y`, `z` attributes, for which the method returns `NotImplemented`
(modelled `none`). -/
def Measurement.add [Add α] (m : Measurement α) (o : Option (XYZ α)) :
    Option (Measurement α) :=
  match o with
  | none => none
  | some o => some (m.clone (m.x + o.x) (m.y + o.y) (m.z + o.z))

/-- The operator `Measurement.__sub__`, with the same `hasattrs` guard as `__add__`. -/
def Measurement.sub [Sub α] (m : Measurement α) (o : Option (XYZ α)) :
    Option (Measurement α) :=
  match o with
  | none => none
  | some o => some (m.clone (m.x - o.x) (m.y - o.y) (m.z - o.z))

/-- The operator `Measurement.__mul__(self, n)`: scalar multiply. -/
def Measurement.mul [Mul α] (m : Measurement α) (n : α) : Measurement α :=
  m.clone (m.x * n) (m.y * n) (m.z * n)

/-- The operator `Measurement.__div__(self, n)` (`= __truediv__`): scalar divide. -/
def Measurement.div [Div α] (m : Measurement α) (n : α) : Measurement α :=
  m.clone (m.x / n) (m.y / n) (m.z / n)

/-- The operator `Measurement.__neg__`. -/
def Measurement.neg [Neg α] (m : Measurement α) : Measurement α :=
  m.clone (-m.x) (-m.y) (-m.z)

/-- The operator `Measurement.__pos__`: unary `+` is the identity on Python numbers. -/
def Measurement.pos (m : Measurement α) : Measurement α :=
  m.clone m.x m.y m.z

/-- Python's `abs` on a number. -/
def pyAbs [Neg α] [Zero α] [LinearOrder α] (a : α) : α :=
  if a < 0 then -a else a

/-- The operator `Measurement.__abs__`: elementwise absolute value. -/
def Measurement.abs [Neg α] [Zero α] [LinearOrder α] (m : Measurement α) :
    Measurement α :=
  m.clone (pyAbs m.x) (pyAbs m.y) (pyAbs m.z)

/-- The operator `Measurement.__invert__`: elementwise bitwise complement, applicable when
the axis values are integers (`~a = -a - 1` in Python). -/
def Measurement.invert (m : Measurement ℤ) : Measurement ℤ :=
  m.clone (-m.x - 1) (-m.y - 1) (-m.z - 1)

/-- The property `Measurement.values`: the `(x, y, z)` triple. -/
def Measurement.values (m : Measurement α) : α × α × α :=
  (m.x, m.y, m.z)

/-! ## The receiver (`class SeismometerReceiver`) -/

/-- The constant `SeismometerReceiver.msgtype_announce = (1 << 0)`. -/
def msgtype_announce : Nat := 1 <<< 0

/-- The constant `SeismometerReceiver.msgtype_measurement = (1 << 1)`. -/
def msgtype_measurement : Nat := 1 <<< 1

/-- The receiver's mutable attributes.
`_first` is the clock anchor `(base_dt, base_ts)` — a wall-clock instant
paired with the sensor-relative time of the first decoded sample — or `None`;
`_prev_dt` is the absolute timestamp of the most recently accepted sample, or
`None`; `drop_on_backward` is the class attribute controlling the backward
filter (`True` by default). Wall-clock instants (`datetime.datetime`) are
rational seconds since an arbitrary epoch. -/
structure ReceiverState where
  _first : Option (ℚ × ℚ)
  _prev_dt : Option ℚ
  drop_on_backward : Bool
  deriving DecidableEq

/-- The state `SeismometerReceiver.__init__` leaves behind:
`self._first = None`, `self._prev_dt = None` (the socket set-up has no bearing
on the decode path). -/
def initState (drop : Bool) : ReceiverState :=
  ⟨none, none, drop⟩

/-- Python's `int()` applied to a number: truncation toward zero. -/
def pyInt (q : ℚ) : ℤ :=
  if q < 0 then ⌈q⌉ else ⌊q⌋

/-- Python's `%` with positive divisor `1` on a number: the result carries the
divisor's sign, so `q % 1 = q - ⌊q⌋`. -/
def pyMod1 (q : ℚ) : ℚ :=
  q - ⌊q⌋

/-- The exact value, in seconds, of
`datetime.timedelta(seconds=secs, microseconds=msecs)`. -/
def timedeltaVal (secs : ℤ) (msecs : ℚ) : ℚ :=
  secs + msecs / 10 ^ 6

/-- The method `SeismometerReceiver.compensate_time(self, ts)`, with the current
wall-clock reading `datetime.datetime.now()` passed in as `now` and the state
threaded explicitly. On the first call (`self._first` falsy, i.e. `None`) the
anchor `(base_dt, base_ts) = (now, ts)` is stored; then
`diff = ts - base_ts`, `secs = int(diff)`, `msecs = (diff % 1) * 10**6`, and
the result is `base_dt + timedelta(seconds=secs, microseconds=msecs)`. -/
def compensate_time (now : ℚ) (s : ReceiverState) (ts : ℚ) :
    ℚ × ReceiverState :=
  let (base, s') :=
    match s._first with
    | none => ((now, ts), { s with _first := some (now, ts) })
    | some base => (base, s)
  let diff := ts - base.2
  let secs := pyInt diff
  let msecs := pyMod1 diff * 10 ^ 6
  (base.1 + timedeltaVal secs msecs, s')

/-- What one call to `SeismometerReceiver.receive` can produce:
a returned `Measurement`, the bare `return`/fall-through value `None`
(the spec's `Suppressed` marker), or a raised exception. -/
inductive ReceiveResult where
  | sample (m : Measurement ℚ)
  | suppressed
  | error (e : RErr)
  deriving DecidableEq

/-- The method `SeismometerReceiver.receive(self)`. The datagram `(data, addr)` read from
the socket and the wall-clock instant `now` observed by `compensate_time`
during this call are passed in; the (possibly mutated) state is returned
alongside the result. Mirrors the source line by line: unpack the wrapper
(exceptions propagate with the state untouched), raise `NotImplementedError`
on announce, decode and time-compensate a measurement, apply the
backward-drop filter (`return` with no value when
`self._prev_dt and timestamp < self._prev_dt`; a `datetime` is always truthy,
so the first conjunct is just a `None` test), record `_prev_dt`, and return
the `Measurement`; any other message type falls off the end of the function,
returning `None`. -/
def receive (now : ℚ) (s : ReceiverState) (data : List Nat) (addr : Addr) :
    ReceiveResult × ReceiverState :=
  match unpack_wrapper data with
  | .error e => (.error e, s)
  | .ok (typ, msg) =>
      if typ = msgtype_announce then (.error .notImplemented, s)
      else if typ = msgtype_measurement then
        match unpack_measurement msg with
        | .error e => (.error e, s)
        | .ok (ts, x, y, z) =>
            let (timestamp, s1) := compensate_time now s ts
            if s1.drop_on_backward then
              match s1._prev_dt with
              | some prev =>
                  if timestamp < prev then (.suppressed, s1)
                  else (.sample ⟨timestamp, x, y, z, some addr⟩,
                        { s1 with _prev_dt := some timestamp })
              | none => (.sample ⟨timestamp, x, y, z, some addr⟩,
                         { s1 with _prev_dt := some timestamp })
            else (.sample ⟨timestamp, x, y, z, some addr⟩, s1)
      else (.suppressed, s)

/-- The sequence of results of repeated `receive` calls on a finite prefix of
the incoming datagram stream (each entry pairs the wall-clock instant of the
call with the datagram and peer address), threading the state. -/
def receiveResults (s : ReceiverState) :
    List (ℚ × List Nat × Addr) → List ReceiveResult
  | [] => []
  | (now, data, addr) :: rest =>
      let (r, s') := receive now s data addr
      r :: receiveResults s' rest

/-- An event observable by the consumer of the `measurements()` generator:
a yielded `Measurement`, or an exception propagating out of `next()`. -/
inductive GenEvent where
  | yielded (m : Measurement ℚ)
  | raised (e : RErr)
  deriving DecidableEq

/-- The generator policy applied to a result sequence: yield samples, silently
skip `None` results, and stop at the first exception — once an exception
propagates out of a Python generator its frame is finished, so the raised
event is the last event the consumer can ever observe from it. -/
def genEvents : List ReceiveResult → List GenEvent
  | [] => []
  | .sample m :: rest => .yielded m :: genEvents rest
  | .suppressed :: rest => genEvents rest
  | .error e :: _ => [.raised e]

/-- The generator `measurements()` run over a finite prefix of the incoming datagram stream,
starting from receiver state `s` (the generator itself constructs a fresh
`SeismometerReceiver()`, i.e. starts from `initState true`): the loop
`while True: m = sr.receive(); if m is None: continue; yield m`, with an
exception from `receive` propagating to the consumer and permanently
finishing the generator's frame. -/
def measurementsRun (s : ReceiverState) :
    List (ℚ × List Nat × Addr) → List GenEvent
  | [] => []
  | (now, data, addr) :: rest =>
      match receive now s data addr with
      | (.sample m, s') => .yielded m :: measurementsRun s' rest
      | (.suppressed, s') => measurementsRun s' rest
      | (.error e, _) => [.raised e]

/-! ## Concrete data shared by several checks -/

/-- A sending peer's address. -/
def peerAddr : Addr := ("127.0.0.1", 5612)

/-- A 28-byte all-zero measurement body (relative time `0.0`, axes `0.0`). -/
def zeroBody : List Nat :=
  [0, 0, 0, 0, 0, 0, 0, 0, 0, 0, 0, 0, 0, 0,
   0, 0, 0, 0, 0, 0, 0, 0, 0, 0, 0, 0, 0, 0]

/-- A well-formed measurement datagram: type 2, declared size 32 (the whole
datagram), and the 28-byte all-zero body. -/
def zeroDatagram : List Nat := [0, 2, 0, 32] ++ zeroBody

/-- A well-formed announce datagram: type 1, declared size 4 (header only). -/
def announceDatagram : List Nat := [0, 1, 0, 4]

/-! ## Helper lemmas -/

theorem msgtype_announce_eq : msgtype_announce = 1 := rfl

theorem msgtype_measurement_eq : msgtype_measurement = 2 := rfl

/-- Truncation-toward-zero plus the floor-based fractional part overshoots the
identity by exactly one on negative non-integral rationals. -/
theorem pyInt_add_pyMod1 (q : ℚ) :
    (pyInt q : ℚ) + pyMod1 q = q + (if q < 0 ∧ Int.fract q ≠ 0 then 1 else 0) := by
  unfold pyInt pyMod1
  by_cases hq : q < 0
  · by_cases hfr : Int.fract q = 0
    · have hq' : q = (⌊q⌋ : ℚ) := by
        have := Int.self_sub_floor q
        rw [hfr] at this
        linarith
      rw [if_pos hq, if_neg (by simp [hfr])]
      rw [hq', Int.ceil_intCast, Int.floor_intCast]
      ring
    · have hceil := Int.ceil_eq_add_one_sub_fract (α := ℚ) hfr
      have hfract : Int.fract q = q - ⌊q⌋ := (Int.self_sub_floor q).symm
      rw [if_pos hq, if_pos ⟨hq, hfr⟩, hceil, hfract]
      ring
  · rw [if_neg hq, if_neg (by tauto)]
    push_cast
    ring

/-- Evaluation fact: `⌊-(5/2)⌋ = -3` over `ℚ` (the floor and ceiling of concrete rationals,
needed to evaluate the time compensation at concrete inputs). -/
theorem floor_neg_five_halves : ⌊(-(5 / 2) : ℚ)⌋ = -3 :=
  Int.floor_eq_iff.mpr (by norm_num)

/-- Evaluation fact: `⌈-(5/2)⌉ = -2` over `ℚ`. -/
theorem ceil_neg_five_halves : ⌈(-(5 / 2) : ℚ)⌉ = -2 :=
  Int.ceil_eq_iff.mpr (by norm_num)

/-- Decoding an all-zero bit pattern gives the float `0.0`. -/
theorem decodeFloat_zero (eb fb : Nat) : decodeFloat eb fb 0 = 0 := by
  simp [decodeFloat]

/-- The all-zero 28-byte body decodes to relative time `0.0` and axis readings
`(0.0, 0.0, 0.0)`. -/
theorem zeroBody_unpack : unpack_measurement zeroBody = .ok (0, 0, 0, 0) := by
  have hp : zeroBody.take 28 = zeroBody := rfl
  have hr : zeroBody.drop 28 = ([] : List Nat) := rfl
  have hlen : zeroBody.length = 28 := rfl
  have e1 : bytesToNat (zeroBody.take 4) = 0 := rfl
  have e2 : bytesToNat ((zeroBody.drop 4).take 8) = 0 := rfl
  have e3 : bytesToNat ((zeroBody.drop 12).take 8) = 0 := rfl
  have e4 : bytesToNat ((zeroBody.drop 20).take 8) = 0 := rfl
  simp [unpack_measurement, measurementFmtSize, hp, hr, hlen,
    unpackMeasurementFields, e1, e2, e3, e4, decodeFloat_zero]

/-- The behavior of `compensate_time` on a not-yet-anchored receiver: the anchor is set to
`(now, ts)` and the returned timestamp is `now` itself. -/
theorem compensate_time_of_first_none (now t : ℚ) (s : ReceiverState)
    (h : s._first = none) :
    compensate_time now s t = (now, { s with _first := some (now, t) }) := by
  simp only [compensate_time, h]
  have : t - t = 0 := sub_self t
  simp [this, pyInt, pyMod1, timedeltaVal]

/-- The behavior of `compensate_time` on an anchored receiver: the state is untouched and the
timestamp is the anchor wall clock plus the truncated seconds and floor-based
fractional part of the sensor-time difference. -/
theorem compensate_time_of_first_some (now t base_dt base_ts : ℚ)
    (s : ReceiverState) (h : s._first = some (base_dt, base_ts)) :
    compensate_time now s t =
      (base_dt + ((pyInt (t - base_ts) : ℚ) + pyMod1 (t - base_ts)), s) := by
  simp only [compensate_time, h, timedeltaVal]
  have h6 : (10 : ℚ) ^ 6 ≠ 0 := by norm_num
  rw [mul_div_cancel_right₀ _ h6]

/-! ## Claim C1 -/

/-- C1 counterexample: `unpack_wrapper` does not raise `PartialData` exactly
when the body length disagrees with `declared_size`. On the datagram
`00 02 00 08 09 09 09 09` the body after the 4-byte header is 4 bytes while
`declared_size = 8`, yet decoding succeeds (the code compares `declared_size`
against the *total* datagram length); conversely, on `00 02 00 04 09 09 09 09`
the body length 4 equals `declared_size = 4`, yet `PartialData` is raised. So
the claim as stated is false. -/
theorem unpack_wrapper_body_length_cex :
    unpack_wrapper [0, 2, 0, 8, 9, 9, 9, 9] = .ok (2, [9, 9, 9, 9]) ∧
    ([9, 9, 9, 9] : List Nat).length ≠ 8 ∧
    unpack_wrapper [0, 2, 0, 4, 9, 9, 9, 9] =
      .error (.partialData 4 4 [0, 2, 0, 4, 9, 9, 9, 9]) :=
  ⟨rfl, by decide, rfl⟩

/-- C1 (amended): for every datagram of at least 4 bytes, `unpack_wrapper`
raises the `PartialData` (Truncated) condition exactly when the *total*
datagram length — header included — does not equal `declared_size`
(equivalently, when the body length does not equal `declared_size - 4`), and
otherwise returns `(message_type, remaining_bytes)`. -/
theorem unpack_wrapper_total_length (b0 b1 b2 b3 : Nat) (rest : List Nat) :
    unpack_wrapper (b0 :: b1 :: b2 :: b3 :: rest) =
      if rest.length + 4 = b2 * 256 + b3 then
        .ok (b0 * 256 + b1, rest)
      else
        .error (.partialData (b2 * 256 + b3) rest.length
          (b0 :: b1 :: b2 :: b3 :: rest)) := by
  simp only [unpack_wrapper, wrapperFmtSize, List.take_succ_cons, List.take_zero,
    List.drop_succ_cons, List.drop_zero, unpackWrapperFields, List.length_cons]
  by_cases h : rest.length + 4 = b2 * 256 + b3
  · have h' : ¬(rest.length + 1 + 1 + 1 + 1 ≠ b2 * 256 + b3) := by omega
    simp [h, h']
  · have h' : rest.length + 1 + 1 + 1 + 1 ≠ b2 * 256 + b3 := by omega
    simp [h, h']

/-! ## Claim C6 -/

/-- C6: on a datagram declaring size 28 with only 20 bytes of body present,
decoding does fail with `PartialData` and no sample is produced — but the
diagnostic fields come out as `num_got = 28` (the declared count) and
`num_want = 20` (the actual count), the reverse of the claim. The call site
`PartialData(sz, len(rest), msg)` fills the parameters `(num_got, num_want)`
with `(declared, actual)`, while the exception's own message
`"wanted %d bytes, got %d" % (num_got, num_want)` renders as
`"wanted 28 bytes, got 20"` — the attribute names contradict the message the
same code builds from them, so the attribute assignment is a slip in the code
and the claim matches the evident intent. -/
theorem unpack_wrapper_swapped_fields :
    unpack_wrapper ([0, 2, 0, 28] ++ List.replicate 20 7) =
      .error (.partialData 28 20 ([0, 2, 0, 28] ++ List.replicate 20 7)) ∧
    receive 0 (initState true) ([0, 2, 0, 28] ++ List.replicate 20 7) peerAddr =
      (.error (.partialData 28 20 ([0, 2, 0, 28] ++ List.replicate 20 7)),
       initState true) ∧
    partialDataMessage 28 20 = "wanted 28 bytes, got 20" :=
  ⟨rfl, by decide, rfl⟩

/-! ## Claim C7 -/

/-- C7: `unpack_measurement` succeeds exactly on 28-byte bodies, returning the
`(relative_time, x, y, z)` quadruple; longer bodies fail with the
trailing-data condition (`ValueError("got excess data ...")`) and shorter
bodies fail with the `struct.error` the spec's taxonomy files under
`Truncated` ("fixed-width payload shorter than required"). -/
theorem unpack_measurement_length_cases (msg : List Nat) :
    unpack_measurement msg =
      if msg.length < 28 then .error .structError
      else if msg.length = 28 then .ok (unpackMeasurementFields (msg.take 28))
      else .error (.excessData (msg.drop 28)) := by
  simp only [unpack_measurement, measurementFmtSize]
  rcases lt_trichotomy msg.length 28 with h | h | h
  · have h1 : ¬((msg.take 28).length = 28) := by
      rw [List.length_take]; omega
    rw [if_neg h1, if_pos h]
  · have h1 : (msg.take 28).length = 28 := by
      rw [List.length_take]; omega
    have h2 : msg.drop 28 = [] := by
      rw [List.drop_eq_nil_iff]; omega
    rw [if_pos h1, if_pos h2, if_neg (by omega), if_pos h]
  · have h1 : (msg.take 28).length = 28 := by
      rw [List.length_take]; omega
    have h2 : ¬(msg.drop 28 = []) := by
      rw [List.drop_eq_nil_iff]; omega
    rw [if_pos h1, if_neg h2, if_neg (by omega), if_neg (by omega)]

/-! ## Claim C2 -/

/-- C2 counterexample: with the anchor at wall-clock `0` and sensor time `10`,
a sample with sensor time `7.5` — `2.5` seconds *before* the anchor — is
assigned timestamp `-1.5`, not the `anchor_wallclock + (t - anchor_sensor_time)
= -2.5` the claim demands: `int()` truncates toward zero while `%` floors, so
the two pieces of the difference disagree by one second on negative
non-integral differences. -/
theorem compensate_time_backward_cex :
    (compensate_time 0 ⟨some (0, 10), none, true⟩ (15 / 2)).1 = -(3 / 2) ∧
    (0 : ℚ) + (15 / 2 - 10) ≠ -(3 / 2) := by
  constructor
  · rw [compensate_time_of_first_some 0 (15 / 2) 0 10 _ rfl]
    have hd : (15 / 2 - 10 : ℚ) = -(5 / 2) := by norm_num
    simp only [hd]
    norm_num [pyInt, pyMod1, floor_neg_five_halves, ceil_neg_five_halves]
  · norm_num

/-- C2 (amended): once anchored at `(anchor_wallclock, anchor_sensor_time) =
(base_dt, base_ts)`, a sample with sensor time `t` is assigned
`base_dt + (t - base_ts)` whenever `t - base_ts` is nonnegative or integral,
but `base_dt + (t - base_ts) + 1` (one second late) when `t - base_ts` is
negative and non-integral; the result never depends on the wall-clock time
`now` of the call (the right-hand side does not mention it) and the state is
unchanged. -/
theorem compensate_time_anchored (now base_dt base_ts t : ℚ)
    (s : ReceiverState) (h : s._first = some (base_dt, base_ts)) :
    compensate_time now s t =
      (base_dt + (t - base_ts) +
        (if t - base_ts < 0 ∧ Int.fract (t - base_ts) ≠ 0 then 1 else 0), s) := by
  rw [compensate_time_of_first_some now t base_dt base_ts s h, pyInt_add_pyMod1,
    ← add_assoc]

/-- Witness for `compensate_time_anchored` at a concrete anchored state. -/
theorem compensate_time_anchored_witness :
    compensate_time 0 ⟨some (0, 10), none, true⟩ (15 / 2) =
      (-(3 / 2), ⟨some (0, 10), none, true⟩) := by
  have h := compensate_time_anchored 0 0 10 (15 / 2) ⟨some (0, 10), none, true⟩ rfl
  rw [h]
  have hd : (15 / 2 - 10 : ℚ) = -(5 / 2) := by norm_num
  have hfr : Int.fract (-(5 / 2) : ℚ) = 1 / 2 := by
    rw [Int.fract, floor_neg_five_halves]
    norm_num
  simp only [hd, Prod.mk.injEq]
  rw [if_pos ⟨by norm_num, by rw [hfr]; norm_num⟩]
  norm_num

/-! ## Claim C3 -/

/-- C3: on a receiver with the backward-drop policy enabled, an anchor in
place and a previously accepted sample at `p`, a decoded measurement whose
computed absolute timestamp is strictly earlier than `p` is returned as the
suppressed marker with the state — ordering state and clock anchor — exactly
unchanged; a measurement not so rejected is returned as a `Measurement`
carrying the peer address and the only state change is `_prev_dt` advancing to
its timestamp. -/
theorem receive_backward_ordering (now : ℚ) (s : ReceiverState)
    (data : List Nat) (addr : Addr) (base : ℚ × ℚ) (p t x y z : ℚ)
    (msg : List Nat)
    (hdrop : s.drop_on_backward = true)
    (hfirst : s._first = some base)
    (hprev : s._prev_dt = some p)
    (hw : unpack_wrapper data = .ok (msgtype_measurement, msg))
    (hm : unpack_measurement msg = .ok (t, x, y, z)) :
    ((compensate_time now s t).1 < p →
      receive now s data addr = (.suppressed, s)) ∧
    (¬(compensate_time now s t).1 < p →
      receive now s data addr =
        (.sample ⟨(compensate_time now s t).1, x, y, z, some addr⟩,
         { s with _prev_dt := some (compensate_time now s t).1 })) := by
  obtain ⟨bd, bt⟩ := base
  have hc := compensate_time_of_first_some now t bd bt s hfirst
  constructor <;> intro hlt <;> rw [hc] at hlt <;>
    simp [receive, hw, hm, msgtype_announce_eq, msgtype_measurement_eq, hc,
      hdrop, hprev, hlt]

/-- Witness for `receive_backward_ordering`: a receiver anchored at `(0, 0)`
with last accepted timestamp `100` suppresses a decoded zero-time measurement
(timestamp `0 < 100`) without touching its state. -/
theorem receive_backward_ordering_witness :
    receive 5 ⟨some (0, 0), some 100, true⟩ zeroDatagram peerAddr =
      (.suppressed, ⟨some (0, 0), some 100, true⟩) := by
  have hlt : (compensate_time 5 ⟨some (0, 0), some 100, true⟩ 0).1 < 100 := by
    rw [compensate_time_of_first_some 5 0 0 0 _ rfl]
    norm_num [pyInt, pyMod1]
  exact (receive_backward_ordering 5 ⟨some (0, 0), some 100, true⟩
    zeroDatagram peerAddr (0, 0) 100 0 0 0 0 zeroBody
    rfl rfl rfl rfl zeroBody_unpack).1 hlt

/-! ## Claim C5 -/

/-- C5 counterexample: a well-framed datagram of message type 3 — neither
Measurement (2) nor Announce (1) — does *not* surface an error: `receive`
falls off the end of the function and returns `None`, the very same value as
the `Suppressed` marker, so unrecognized types are silently skipped, contrary
to the claim. -/
theorem receive_unknown_type_silent_cex :
    receive 0 (initState true) [0, 3, 0, 4] peerAddr =
      (.suppressed, initState true) := by
  decide

/-- C5 (amended): for a well-framed datagram whose type is not Measurement,
receiver state is left unchanged in every case (so later measurements are
processed normally), and the Announce type (1) raises
`NotImplementedError` — a distinct observable per-datagram error — while any
*other* non-Measurement type produces the same `None` result as the
`Suppressed` marker, a silent skip. -/
theorem receive_non_measurement (now : ℚ) (s : ReceiverState) (data : List Nat)
    (addr : Addr) (typ : Nat) (msg : List Nat)
    (hw : unpack_wrapper data = .ok (typ, msg))
    (hne : typ ≠ msgtype_measurement) :
    (typ = msgtype_announce →
      receive now s data addr = (.error .notImplemented, s)) ∧
    (typ ≠ msgtype_announce → receive now s data addr = (.suppressed, s)) := by
  constructor <;> intro h1 <;> simp [receive, hw, h1, hne]

/-- Witness for `receive_non_measurement`: an announce datagram raises
`NotImplementedError` and leaves the fresh receiver state unchanged. -/
theorem receive_non_measurement_witness :
    receive 0 (initState true) announceDatagram peerAddr =
      (.error .notImplemented, initState true) :=
  (receive_non_measurement 0 (initState true) announceDatagram peerAddr
    1 [] rfl (by decide)).1 rfl

/-! ## Claim C10 -/

/-- C10: from a fresh receiver (no anchor, no previously accepted sample),
any datagram that decodes as a measurement is always returned as a sample —
never suppressed — whatever the `drop_on_backward` flag, the anchor is
established at `(now, t)`, and the sample's absolute timestamp is exactly the
wall-clock instant `now` captured while establishing the anchor. -/
theorem receive_first_measurement (now : ℚ) (data : List Nat) (addr : Addr)
    (drop : Bool) (t x y z : ℚ) (msg : List Nat)
    (hw : unpack_wrapper data = .ok (msgtype_measurement, msg))
    (hm : unpack_measurement msg = .ok (t, x, y, z)) :
    receive now (initState drop) data addr =
      (.sample ⟨now, x, y, z, some addr⟩,
       ⟨some (now, t), if drop then some now else none, drop⟩) := by
  cases drop with
  | true =>
    have hc := compensate_time_of_first_none now t ⟨none, none, true⟩ rfl
    simp [receive, hw, hm, msgtype_announce_eq, msgtype_measurement_eq, hc,
      initState]
  | false =>
    have hc := compensate_time_of_first_none now t ⟨none, none, false⟩ rfl
    simp [receive, hw, hm, msgtype_announce_eq, msgtype_measurement_eq, hc,
      initState]

/-- Witness for `receive_first_measurement` on a concrete zero measurement
datagram with the backward-drop policy enabled. -/
theorem receive_first_measurement_witness :
    receive 42 (initState true) zeroDatagram peerAddr =
      (.sample ⟨42, 0, 0, 0, some peerAddr⟩, ⟨some (42, 0), some 42, true⟩) := by
  have h := receive_first_measurement 42 zeroDatagram peerAddr true 0 0 0 0
    zeroBody rfl zeroBody_unpack
  simpa using h

/-! ## Claim C4 -/

/-- The 28-byte measurement body of the spec's concrete scenario: the IEEE-754
single `1.5` followed by the doubles nearest `0.01`, `0.02` and `-0.98`, all
big-endian. -/
def c4Body : List Nat :=
  [63, 192, 0, 0,
   63, 132, 122, 225, 71, 174, 20, 123,
   63, 148, 122, 225, 71, 174, 20, 123,
   191, 239, 92, 40, 245, 194, 143, 92]

/-- The f32 `1.5` (bits `3F C0 00 00`) decodes to exactly `3/2`. -/
theorem decodeFloat_c4_time :
    decodeFloat 8 23 (bytesToNat [63, 192, 0, 0]) = 3 / 2 := by
  norm_num [decodeFloat, bytesToNat, List.foldl]

/-- The f64 nearest `0.01` (bits `3F 84 7A E1 47 AE 14 7B`) decodes to
`5764607523034235 / 2^59`. -/
theorem decodeFloat_c4_x :
    decodeFloat 11 52 (bytesToNat [63, 132, 122, 225, 71, 174, 20, 123]) =
      5764607523034235 / 2 ^ 59 := by
  norm_num [decodeFloat, bytesToNat, List.foldl]

/-- The f64 nearest `0.02` (bits `3F 94 7A E1 47 AE 14 7B`) decodes to
`5764607523034235 / 2^58`. -/
theorem decodeFloat_c4_y :
    decodeFloat 11 52 (bytesToNat [63, 148, 122, 225, 71, 174, 20, 123]) =
      5764607523034235 / 2 ^ 58 := by
  norm_num [decodeFloat, bytesToNat, List.foldl]

/-- The f64 nearest `-0.98` (bits `BF EF 5C 28 F5 C2 8F 5C`) decodes to
`-(8827055269646172 / 2^53)`. -/
theorem decodeFloat_c4_z :
    decodeFloat 11 52 (bytesToNat [191, 239, 92, 40, 245, 194, 143, 92]) =
      -(8827055269646172 / 2 ^ 53) := by
  norm_num [decodeFloat, bytesToNat, List.foldl]

/-- The claim's datagram as specified: header `00 02 00 1C`
(type 2, `declared_size = 28`) followed by the 28-byte body. -/
def c4DatagramAsSpecified : List Nat := [0, 2, 0, 28] ++ c4Body

/-- The same body framed with `declared_size = 32`, the total datagram
length. -/
def c4Datagram : List Nat := [0, 2, 0, 32] ++ c4Body

/-- C4 counterexample: the claim's datagram — header `00 02 00 1C`
(`declared_size = 28`) followed by exactly the 28-byte body — does *not*
decode successfully: the code compares `declared_size` with the total
datagram length (32), so it raises `PartialData` and produces no sample. -/
theorem c4_claimed_datagram_rejected_cex :
    receive 0 (initState true) c4DatagramAsSpecified peerAddr =
      (.error (.partialData 28 28 c4DatagramAsSpecified), initState true) := by
  rfl

/-- C4 (amended): the same body framed with header `00 02 00 20`
(`declared_size = 32`, the *total* datagram length, header included) decodes
successfully on a fresh receiver and produces a sample whose `x`, `y`, `z`
are exactly the IEEE-754 double values encoded in the body — the doubles
nearest `0.01`, `0.02` and `-0.98` — and whose `source` is the sending peer's
address. -/
theorem c4_total_size_datagram_decodes (now : ℚ) (addr : Addr) :
    receive now (initState true) c4Datagram addr =
      (.sample ⟨now, 5764607523034235 / 2 ^ 59, 5764607523034235 / 2 ^ 58,
          -(8827055269646172 / 2 ^ 53), some addr⟩,
       ⟨some (now, 3 / 2), some now, true⟩) := by
  have hw : unpack_wrapper c4Datagram =
      .ok (msgtype_measurement, c4Body) := rfl
  have hm : unpack_measurement c4Body =
      .ok (3 / 2, 5764607523034235 / 2 ^ 59, 5764607523034235 / 2 ^ 58,
           -(8827055269646172 / 2 ^ 53)) := by
    have hp : c4Body.take 28 = c4Body := rfl
    have hr : c4Body.drop 28 = ([] : List Nat) := rfl
    have hlen : c4Body.length = 28 := rfl
    have e1 : c4Body.take 4 = [63, 192, 0, 0] := rfl
    have e2 : (c4Body.drop 4).take 8 = [63, 132, 122, 225, 71, 174, 20, 123] := rfl
    have e3 : (c4Body.drop 12).take 8 = [63, 148, 122, 225, 71, 174, 20, 123] := rfl
    have e4 : (c4Body.drop 20).take 8 = [191, 239, 92, 40, 245, 194, 143, 92] := rfl
    simp [unpack_measurement, measurementFmtSize, hp, hr, hlen,
      unpackMeasurementFields, e1, e2, e3, e4, decodeFloat_c4_time,
      decodeFloat_c4_x, decodeFloat_c4_y, decodeFloat_c4_z]
  have hc := compensate_time_of_first_none now (3 / 2) ⟨none, none, true⟩ rfl
  simp [receive, hw, hm, msgtype_announce_eq, msgtype_measurement_eq, hc,
    initState]

/-! ## Claim C8 -/

/-- The generator run equals the generator policy (`genEvents`) applied to the
pointwise `receive` results. -/
theorem measurementsRun_eq_genEvents (s : ReceiverState)
    (ds : List (ℚ × List Nat × Addr)) :
    measurementsRun s ds = genEvents (receiveResults s ds) := by
  induction ds generalizing s with
  | nil => rfl
  | cons d rest ih =>
    obtain ⟨now, data, addr⟩ := d
    simp only [measurementsRun, receiveResults]
    rcases h : receive now s data addr with ⟨r, s'⟩
    cases r <;> simp [genEvents, h, ih]

/-- In a generator-policy event list, a raised exception can only be the very
last event. -/
theorem genEvents_raised_getLast (rs : List ReceiveResult) (e : RErr)
    (h : GenEvent.raised e ∈ genEvents rs) :
    (genEvents rs).getLast? = some (.raised e) := by
  induction rs with
  | nil => simp [genEvents] at h
  | cons r rest ih =>
    cases r with
    | sample m =>
      simp only [genEvents] at h ⊢
      rcases List.mem_cons.mp h with h1 | h2
      · exact absurd h1 (by simp)
      · have hne : genEvents rest ≠ [] := List.ne_nil_of_mem h2
        obtain ⟨r', l', hrl⟩ := List.exists_cons_of_ne_nil hne
        rw [hrl, List.getLast?_cons_cons, ← hrl]
        exact ih h2
    | suppressed =>
      simp only [genEvents] at h ⊢
      exact ih h
    | error e' =>
      simp only [genEvents, List.mem_singleton] at h
      simp [genEvents, h.symm]

/-- C8 (amended): the `measurements()` generator yields exactly the accepted
samples of the `receive` result sequence in order and silently skips `None`
(suppressed) results; a per-datagram error is surfaced to the consumer as an
exception, but it permanently finishes the generator — an error event is
always the *last* event the consumer can observe, so no subsequent sample is
ever received through this generator. -/
theorem measurements_generator_events (s : ReceiverState)
    (ds : List (ℚ × List Nat × Addr)) :
    measurementsRun s ds = genEvents (receiveResults s ds) ∧
    ∀ e, GenEvent.raised e ∈ measurementsRun s ds →
      (measurementsRun s ds).getLast? = some (.raised e) := by
  refine ⟨measurementsRun_eq_genEvents s ds, fun e h => ?_⟩
  rw [measurementsRun_eq_genEvents] at h ⊢
  exact genEvents_raised_getLast _ e h

/-- Witness for `measurements_generator_events`: on a stream holding one
announce datagram the generator's only event is the raised
`NotImplementedError`, and it is the last. -/
theorem measurements_generator_events_witness :
    (measurementsRun (initState true)
        [(0, announceDatagram, peerAddr)]).getLast? =
      some (.raised .notImplemented) :=
  (measurements_generator_events (initState true)
    [(0, announceDatagram, peerAddr)]).2 RErr.notImplemented (by decide)

/-- C8 counterexample: with an announce datagram followed by a perfectly good
measurement datagram, the generator's event trace is just the raised
`NotImplementedError` — the subsequent measurement is never yielded to this
consumer (the generator frame is finished), even though that same datagram
decodes to a sample when `receive` is called directly. The claim's "after
such an error the consumer can continue pulling and receives subsequent
samples" is false. -/
theorem measurements_error_terminates_cex :
    measurementsRun (initState true)
      [(0, announceDatagram, peerAddr), (1, zeroDatagram, peerAddr)] =
      [.raised .notImplemented] ∧
    (receive 1 (initState true) zeroDatagram peerAddr).1 =
      .sample ⟨1, 0, 0, 0, some peerAddr⟩ := by
  constructor
  · rfl
  · have hw : unpack_wrapper zeroDatagram =
        .ok (msgtype_measurement, zeroBody) := rfl
    have hc := compensate_time_of_first_none 1 0 ⟨none, none, true⟩ rfl
    simp [receive, hw, zeroBody_unpack, msgtype_announce_eq,
      msgtype_measurement_eq, hc, initState]

/-! ## Claim C9 -/

/-- C9: every derived-sample operation on a `Measurement` — componentwise add
and subtract, scalar multiply and divide, unary negate and plus, elementwise
absolute value, elementwise bitwise complement (on integral axes), and clone —
returns a new instance whose `timestamp` and `source` equal those of the
left/primary operand (the operations are pure functions over values, so the
operands themselves are never mutated); add and subtract with an operand
lacking any of the `x`, `y`, `z` attributes return `NotImplemented` (`none`),
not a crash. -/
theorem measurement_ops_frame {α : Type} [Add α] [Sub α] [Mul α] [Div α]
    [Neg α] [Zero α] [LinearOrder α] (m : Measurement α) (o : XYZ α)
    (n a b c : α) (mi : Measurement ℤ) :
    m.add none = none ∧
    m.sub none = none ∧
    (m.add (some o)).map Measurement.timestamp = some m.timestamp ∧
    (m.add (some o)).map Measurement.source = some m.source ∧
    (m.sub (some o)).map Measurement.timestamp = some m.timestamp ∧
    (m.sub (some o)).map Measurement.source = some m.source ∧
    (m.mul n).timestamp = m.timestamp ∧ (m.mul n).source = m.source ∧
    (m.div n).timestamp = m.timestamp ∧ (m.div n).source = m.source ∧
    m.neg.timestamp = m.timestamp ∧ m.neg.source = m.source ∧
    m.pos.timestamp = m.timestamp ∧ m.pos.source = m.source ∧
    m.abs.timestamp = m.timestamp ∧ m.abs.source = m.source ∧
    (m.clone a b c).timestamp = m.timestamp ∧
    (m.clone a b c).source = m.source ∧
    mi.invert.timestamp = mi.timestamp ∧ mi.invert.source = mi.source := by
  simp [Measurement.add, Measurement.sub, Measurement.mul, Measurement.div,
    Measurement.neg, Measurement.pos, Measurement.abs, Measurement.clone,
    Measurement.invert]

end Rattler
